import Mathlib

/-!
Shallow embedding of the OsMesa offscreen adapter
(src/glutin/src/api/osmesa.rs) and of the Wayland window-surface adapter
(src/glutin/src/platform_impl/unix/wayland.rs) of the glutin repository.

The native libraries (osmesa-sys, wayland-client) are outside the
repository; they are modelled by an explicit environment record `OsEnv`
describing the results the native calls would return.  Every modelled
operation additionally returns the list of native calls it performed
(`NativeCall`), so that statements about which native calls happen are
expressible.  Machine-integer casts that can change a value (u32 to i32,
usize overflow) are made explicit.
-/

/-- Attribute key OSMESA_PROFILE from the osmesa-sys bindings (osmesa.h). -/
def OSMESA_PROFILE : Int := 0x33

/-- Attribute value OSMESA_CORE_PROFILE from the osmesa-sys bindings. -/
def OSMESA_CORE_PROFILE : Int := 0x34

/-- Attribute value OSMESA_COMPAT_PROFILE from the osmesa-sys bindings. -/
def OSMESA_COMPAT_PROFILE : Int := 0x35

/-- Attribute key OSMESA_CONTEXT_MAJOR_VERSION from the osmesa-sys bindings. -/
def OSMESA_CONTEXT_MAJOR_VERSION : Int := 0x36

/-- Attribute key OSMESA_CONTEXT_MINOR_VERSION from the osmesa-sys bindings. -/
def OSMESA_CONTEXT_MINOR_VERSION : Int := 0x37

/-- The GL_UNSIGNED_BYTE pixel-type constant, written literally as 0x1401 in
make_current_osmesa_buffer. -/
def GL_UNSIGNED_BYTE : Nat := 0x1401

/-- The modulus of the 64-bit usize type. -/
def USIZE_MOD : Nat := 2 ^ 64

/-- The Rust cast `n as i32` applied to a u32 value `n < 2^32`:
values below 2^31 are preserved, larger ones wrap to negative. -/
def u32_as_i32 (n : Nat) : Int :=
  if n < 2 ^ 31 then (n : Int) else (n : Int) - 2 ^ 32

/-- The Api enum of glutin (crate::config::Api), as used by the source:
variants OpenGl, OpenGlEs and WebGl. -/
inductive Api
| openGl
| openGlEs
| webGl
deriving DecidableEq

/-- The GlProfile enum of glutin (crate::context::GlProfile). -/
inductive GlProfile
| compatibility
| core
deriving DecidableEq

/-- The Robustness enum of glutin (crate::context::Robustness). -/
inductive Robustness
| notRobust
| noError
| tryRobustNoResetNotification
| robustNoResetNotification
| tryRobustLoseContextOnReset
| robustLoseContextOnReset
deriving DecidableEq

/-- GlVersion(major, minor) of glutin (crate::config::GlVersion); the two
u8 components are modelled as naturals. -/
structure GlVersion where
  major : Nat
  minor : Nat
deriving DecidableEq

/-- The GlRequest enum of glutin (crate::config::GlRequest). -/
inductive GlRequest
| latest
| specific (api : Api) (version : GlVersion)
| glThenGles (opengl_version : GlVersion) (opengles_version : GlVersion)
deriving DecidableEq

/-- The fields of ContextBuilderWrapper read by OsMesaContext::new: the
sharing request (the shared context modelled by its handle), the
robustness mode and the optional profile. -/
structure ContextBuilderWrapper where
  sharing : Option Nat
  robustness : Robustness
  profile : Option GlProfile
deriving DecidableEq

/-- The boxed error payloads that OsMesaContext::new places inside
CreationError::NoBackendAvailable: a LoadingError with the debug text of
the dlopen failure, or the NoEsOrWebGlSupported marker error. -/
inductive BoxedError
| loadingError (msg : String)
| noEsOrWebGlSupported
deriving DecidableEq

/-- The CreationError variants produced by the modelled code
(crate::CreationError). -/
inductive CreationError
| noBackendAvailable (e : BoxedError)
| robustnessNotSupported
| osError (msg : String)
deriving DecidableEq

/-- The ContextError type of glutin (crate::context::ContextError); the
modelled OsMesa code never constructs any of its variants. -/
inductive ContextError
| osError (msg : String)
| contextLost
deriving DecidableEq

/-- An OsMesaContext wraps the native context handle returned by
OSMesaCreateContextAttribs; the handle is modelled as a natural. -/
structure OsMesaContext where
  context : Nat
deriving DecidableEq

/-- Result of OsMesaContext::new: the Ok value, the Err value, or a
a process abort with the given message. -/
inductive NewOutcome
| ok (ctx : OsMesaContext)
| err (e : CreationError)
| panicked (msg : String)
deriving DecidableEq

/-- Result of a post-creation context operation: Ok, a typed
ContextError, or a process abort with the given message. -/
inductive CtxCallOutcome
| ok
| err (e : ContextError)
| panicked (msg : String)
deriving DecidableEq

/-- One call into the native OSMesa library.  makeCurrent records whether
the context and buffer pointers were null, the pixel type, and the width
and height arguments. -/
inductive NativeCall
| tryLoad
| createContextAttribs (attribs : List Int)
| getCurrentContext
| makeCurrent (ctxIsNull : Bool) (bufIsNull : Bool) (ty : Nat) (w : Int) (h : Int)
deriving DecidableEq

/-- The behaviour of the native library, supplied as an environment:
whether loading fails (and with which debug text), what handle
OSMesaCreateContextAttribs returns for a given attribute list (none for a
null pointer), which context is currently bound (0 for none), and the
boolean success of the two OSMesaMakeCurrent call shapes. -/
structure OsEnv where
  loadResult : Option String
  createResult : List Int → Option Nat
  currentContext : Nat
  clearRet : Bool
  bindRet : Bool

/-- An OsMesaBuffer: the backing Vec of MaybeUninit bytes (each byte
modelled as a unit, since its value is uninitialized) and the stored
width and height u32 fields, in source field order. -/
structure OsMesaBuffer where
  buffer : List Unit
  width : Nat
  height : Nat
deriving DecidableEq

/-- The panic message of the sharing check in OsMesaContext::new. -/
def sharingPanicMsg : String := "Context sharing not possible with OsMesa"

/-- The OsError text used when OSMesaCreateContextAttribs returns null. -/
def createFailedMsg : String := "OSMesaCreateContextAttribs failed"

/-- The panic message of make_current_osmesa_buffer. -/
def makeCurrentFailedMsg : String := "OSMesaMakeCurrent failed"

/-- The message of the not-implemented abort in make_not_current. -/
def unimplMsg : String :=
  "not implemented: OSMesaMakeCurrent failed to make the context not current. This most likely means that you are using an older gallium-based mesa driver."

/-- The profile value pushed for a GlProfile, per the match in
OsMesaContext::new. -/
def profileValue : GlProfile → Int
  | .compatibility => OSMESA_COMPAT_PROFILE
  | .core => OSMESA_CORE_PROFILE

/-- The attribute-list segment contributed by the profile option in
OsMesaContext::new: empty when no profile was requested, otherwise the
OSMESA_PROFILE key followed by its value. -/
def profileAttribs : Option GlProfile → List Int
  | none => []
  | some p => [OSMESA_PROFILE, profileValue p]

/-- The attribute-list segment contributed by the version match in
OsMesaContext::new, for the requests that reach the native call: empty
for Latest, major and minor key-value pairs for Specific and for
GlThenGles (which uses only its opengl_version component). -/
def versionAttribs : GlRequest → List Int
  | .latest => []
  | .specific _ v =>
      [OSMESA_CONTEXT_MAJOR_VERSION, (v.major : Int),
       OSMESA_CONTEXT_MINOR_VERSION, (v.minor : Int)]
  | .glThenGles v _ =>
      [OSMESA_CONTEXT_MAJOR_VERSION, (v.major : Int),
       OSMESA_CONTEXT_MINOR_VERSION, (v.minor : Int)]

/-- OsMesaContext::new.  Mirrors the source order: try_loading, the
sharing panic, the robustness check, the attribute-list construction with
the embedded ES/WebGl rejection, the 0 sentinel, and finally the native
OSMesaCreateContextAttribs call whose null result maps to OsError. -/
def OsMesaContext.new (env : OsEnv) (cb : ContextBuilderWrapper)
    (version : GlRequest) : NewOutcome × List NativeCall :=
  match env.loadResult with
  | some msg =>
      (.err (.noBackendAvailable (.loadingError msg)), [.tryLoad])
  | none =>
    if cb.sharing.isSome then
      (.panicked sharingPanicMsg, [.tryLoad])
    else
      match cb.robustness with
      | .robustNoResetNotification | .robustLoseContextOnReset =>
          (.err CreationError.robustnessNotSupported, [.tryLoad])
      | _ =>
        match version with
        | .specific .openGlEs _ | .specific .webGl _ =>
            (.err (.noBackendAvailable .noEsOrWebGlSupported), [.tryLoad])
        | _ =>
          let attribs := profileAttribs cb.profile ++ versionAttribs version ++ [0]
          (match env.createResult attribs with
           | none => NewOutcome.err (.osError createFailedMsg)
           | some h => NewOutcome.ok ⟨h⟩,
           [.tryLoad, .createContextAttribs attribs])

/-- make_current_osmesa_buffer: one OSMesaMakeCurrent call with the
buffer pointer, GL_UNSIGNED_BYTE, and the width and height cast to c_int;
a zero return is a panic, otherwise Ok. -/
def OsMesaContext.make_current_osmesa_buffer (env : OsEnv)
    (_self : OsMesaContext) (buffer : OsMesaBuffer) :
    CtxCallOutcome × List NativeCall :=
  let call := NativeCall.makeCurrent false false GL_UNSIGNED_BYTE
    (u32_as_i32 buffer.width) (u32_as_i32 buffer.height)
  if env.bindRet then (.ok, [call])
  else (.panicked makeCurrentFailedMsg, [call])

/-- make_not_current: queries OSMesaGetCurrentContext; only when this
context is the current one does it issue the all-null OSMesaMakeCurrent
clear call, whose zero return is the not-implemented abort.  The
third component is the current context after the call. -/
def OsMesaContext.make_not_current (env : OsEnv) (self : OsMesaContext) :
    CtxCallOutcome × List NativeCall × Nat :=
  if env.currentContext = self.context then
    if env.clearRet then
      (.ok, [.getCurrentContext, .makeCurrent true true 0 0 0], 0)
    else
      (.panicked unimplMsg,
       [.getCurrentContext, .makeCurrent true true 0 0 0],
       env.currentContext)
  else
    (.ok, [.getCurrentContext], env.currentContext)

/-- True when the trace contains an OSMesaCreateContextAttribs call. -/
def traceHasCreate : List NativeCall → Bool
  | [] => false
  | .createContextAttribs _ :: _ => true
  | _ :: rest => traceHasCreate rest

/-- True when the trace contains an OSMesaMakeCurrent call (the only
state-changing native call of the modelled operations). -/
def traceHasMakeCurrent : List NativeCall → Bool
  | [] => false
  | .makeCurrent _ _ _ _ _ :: _ => true
  | _ :: rest => traceHasMakeCurrent rest

/-- True when a creation outcome is an Err of the NoBackendAvailable
variant. -/
def errIsNoBackendAvailable : NewOutcome → Bool
  | .err (.noBackendAvailable _) => true
  | _ => false

/-- True when a creation outcome is Err(RobustnessNotSupported). -/
def isErrRobustness : NewOutcome → Bool
  | .err .robustnessNotSupported => true
  | _ => false

/-- True when a creation outcome is an Err of any variant. -/
def newIsErr : NewOutcome → Bool
  | .err _ => true
  | _ => false

/-- True when a creation outcome is a panic. -/
def newIsPanicked : NewOutcome → Bool
  | .panicked _ => true
  | _ => false

/-- True when a context-operation outcome is a typed Err. -/
def ctxIsErr : CtxCallOutcome → Bool
  | .err _ => true
  | _ => false

/-- OsMesaBuffer::new: always Ok, no native call; the backing storage is
built by repeating an uninitialized byte `width as usize * height as
usize * 4` times, the usize product taken with its 64-bit wrap-around,
and the width and height fields store the two u32 components. -/
def OsMesaBuffer.new (_ctx : OsMesaContext) (width height : Nat) :
    (Except CreationError OsMesaBuffer) × List NativeCall :=
  (.ok { buffer := List.replicate (width * height * 4 % USIZE_MOD) ()
         width := width
         height := height },
   [])

/-- The length of the backing storage OsMesaBuffer::new allocates for a
given size, when construction succeeds. -/
def newBufferLen (w h : Nat) : Option Nat :=
  match (OsMesaBuffer.new ⟨1⟩ w h).1 with
  | .ok b => some b.buffer.length
  | .error _ => none

/-- State of a wayland-client WlEglSurface (wl_egl_window): the size it
tracks and the attach offsets last passed to resize. -/
structure WlEglSurfaceState where
  width : Int
  height : Int
  dx : Int
  dy : Int
deriving DecidableEq

/-- Model of wayland-client WlEglSurface::resize: stores the new size
and the attach offsets. -/
def WlEglSurfaceState.resize (_s : WlEglSurfaceState) (w h dx dy : Int) :
    WlEglSurfaceState :=
  { width := w, height := h, dx := dx, dy := dy }

/-- The Wayland WindowSurface: the windowing-toolkit-level surface handle
and the graphics-API-level (egl) surface, the latter modelled by an
abstract handle. -/
structure WindowSurface where
  wsurface : WlEglSurfaceState
  surface : Nat
deriving DecidableEq

/-- WindowSurface::update_after_resize: forwards the (u32, u32) size to
the toolkit-level surface's resize as c_int values, with offsets 0, 0;
the graphics-API-level surface field is not touched. -/
def WindowSurface.update_after_resize (s : WindowSurface)
    (width height : Nat) : WindowSurface :=
  { s with wsurface := s.wsurface.resize (u32_as_i32 width) (u32_as_i32 height) 0 0 }

/-- An environment in which the native library loads and every native
call succeeds; context creation returns handle 1 and no context is
current. -/
def envLoaded : OsEnv :=
  { loadResult := none
    createResult := fun _ => some 1
    currentContext := 0
    clearRet := true
    bindRet := true }

/-- The debug text of a load failure used in concrete instances. -/
def loadFailText : String := "library not found"

/-- An environment in which loading the native library fails. -/
def envLoadFail : OsEnv :=
  { loadResult := some loadFailText
    createResult := fun _ => some 1
    currentContext := 0
    clearRet := true
    bindRet := true }

/-- A builder with no sharing, default robustness, no profile. -/
def cbPlain : ContextBuilderWrapper :=
  { sharing := none, robustness := .notRobust, profile := none }

/-- A builder requesting the core profile. -/
def cbCore : ContextBuilderWrapper :=
  { sharing := none, robustness := .notRobust, profile := some .core }

/-- A builder requesting a rejected robustness mode. -/
def cbRob : ContextBuilderWrapper :=
  { sharing := none, robustness := .robustNoResetNotification, profile := none }

/-- A builder with a sharing request. -/
def cbShare : ContextBuilderWrapper :=
  { sharing := some 7, robustness := .notRobust, profile := none }

/-- A builder with a sharing request and a rejected robustness mode. -/
def cbShareRob : ContextBuilderWrapper :=
  { sharing := some 7
    robustness := .robustNoResetNotification
    profile := none }

/-- A concrete Wayland window surface used in concrete instances. -/
def winSurfW : WindowSurface :=
  { wsurface := { width := 640, height := 480, dx := 0, dy := 0 }
    surface := 42 }

/-- Claim C5: make_not_current performs the native clear-current call
only if this context is presently current; when it is not current, the
call returns Ok, makes no native state-changing call, and leaves the
current-context binding unchanged.  The first part is stated through its
contrapositive: under the not-current hypothesis no OSMesaMakeCurrent
call appears in the trace. -/
theorem c5_make_not_current_noop (env : OsEnv) (self : OsMesaContext)
    (h : env.currentContext ≠ self.context) :
    (OsMesaContext.make_not_current env self).1 = CtxCallOutcome.ok
    ∧ traceHasMakeCurrent (OsMesaContext.make_not_current env self).2.1 = false
    ∧ (OsMesaContext.make_not_current env self).2.2 = env.currentContext := by
  simp [OsMesaContext.make_not_current, h, traceHasMakeCurrent]

/-- Witness for C5 at a concrete environment where context 5 is not the
current one (context 3 is). -/
theorem c5_make_not_current_noop_witness :
    (OsMesaContext.make_not_current
        { envLoaded with currentContext := 3 } ⟨5⟩).1 = CtxCallOutcome.ok
    ∧ traceHasMakeCurrent
        (OsMesaContext.make_not_current
          { envLoaded with currentContext := 3 } ⟨5⟩).2.1 = false
    ∧ (OsMesaContext.make_not_current
        { envLoaded with currentContext := 3 } ⟨5⟩).2.2 = 3 :=
  c5_make_not_current_noop { envLoaded with currentContext := 3 } ⟨5⟩ (by decide)

/-- Claim C6: when the context is current and the native clear-current
call reports failure, make_not_current aborts with the distinct
not-implemented message and never returns a typed ContextError. -/
theorem c6_unbind_failure_signal (env : OsEnv) (self : OsMesaContext)
    (h1 : env.currentContext = self.context) (h2 : env.clearRet = false) :
    (OsMesaContext.make_not_current env self).1 = CtxCallOutcome.panicked unimplMsg
    ∧ ctxIsErr (OsMesaContext.make_not_current env self).1 = false := by
  simp [OsMesaContext.make_not_current, h1, h2, ctxIsErr]

/-- Witness for C6 at a concrete environment where context 5 is current
and the clear call fails. -/
theorem c6_unbind_failure_signal_witness :
    (OsMesaContext.make_not_current
        { envLoaded with currentContext := 5, clearRet := false } ⟨5⟩).1
      = CtxCallOutcome.panicked unimplMsg
    ∧ ctxIsErr (OsMesaContext.make_not_current
        { envLoaded with currentContext := 5, clearRet := false } ⟨5⟩).1 = false :=
  c6_unbind_failure_signal
    { envLoaded with currentContext := 5, clearRet := false } ⟨5⟩ rfl rfl

/-- Claim C7: make_current_osmesa_buffer never produces the Err branch of
its result type: for every environment, context and buffer its outcome is
either Ok or the fatal panic, and is never a typed ContextError. -/
theorem c7_bind_never_err (env : OsEnv) (self : OsMesaContext)
    (buffer : OsMesaBuffer) :
    ((OsMesaContext.make_current_osmesa_buffer env self buffer).1 = CtxCallOutcome.ok
      ∨ (OsMesaContext.make_current_osmesa_buffer env self buffer).1
          = CtxCallOutcome.panicked makeCurrentFailedMsg)
    ∧ ctxIsErr (OsMesaContext.make_current_osmesa_buffer env self buffer).1 = false := by
  cases hb : env.bindRet <;>
    simp [OsMesaContext.make_current_osmesa_buffer, hb, ctxIsErr]

/-- Claim C10: a GlThenGles version request is handled by
OsMesaContext::new exactly like a Specific desktop-OpenGL request with
its opengl_version component; the ES fallback component is ignored, so
the two calls agree in outcome and native-call trace for every
environment and builder. -/
theorem c10_glthengles_accepted (env : OsEnv) (cb : ContextBuilderWrapper)
    (glv esv : GlVersion) :
    OsMesaContext.new env cb (GlRequest.glThenGles glv esv)
      = OsMesaContext.new env cb (GlRequest.specific Api.openGl glv) := by
  cases hl : env.loadResult <;>
    cases hs : cb.sharing <;>
      cases hr : cb.robustness <;>
        simp [OsMesaContext.new, hl, hs, hr, versionAttribs]

/-- For every size, the storage length OsMesaBuffer::new allocates is
the usize product w * h * 4 taken modulo 2^64. -/
theorem newBufferLen_eq (w h : Nat) :
    newBufferLen w h = some (w * h * 4 % USIZE_MOD) := by
  simp [newBufferLen, OsMesaBuffer.new]

/-- Counterexample to claim C1 as stated: at the valid u32 size pair
(2147483648, 2147483649) (both positive), the usize product
w * h * 4 wraps modulo 2^64, so OsMesaBuffer::new returns Ok with a
backing storage of length 8589934592, which is not w * h * 4. -/
theorem c1_counterexample :
    newBufferLen 2147483648 2147483649 = some 8589934592
    ∧ 8589934592 ≠ 2147483648 * 2147483649 * 4 := by
  constructor
  · rw [newBufferLen_eq]
    norm_num [USIZE_MOD]
  · norm_num

/-- Claim C1 amended: for every u32 size pair (w, h) with w, h positive
and w * h * 4 below 2^64 (no usize overflow), OsMesaBuffer::new returns
Ok with a buffer whose backing storage has length exactly w * h * 4 and
whose width and height fields equal w and h, and it performs no native
call. -/
theorem c1_buffer_storage_amended (ctx : OsMesaContext) (w h : Nat)
    (hw : 0 < w) (hh : 0 < h) (hw32 : w < 2 ^ 32) (hh32 : h < 2 ^ 32)
    (hsz : w * h * 4 < 2 ^ 64) :
    OsMesaBuffer.new ctx w h
      = (Except.ok { buffer := List.replicate (w * h * 4) ()
                     width := w
                     height := h }, [])
    ∧ (List.replicate (w * h * 4) ()).length = w * h * 4 := by
  norm_num at hsz
  constructor
  · simp [OsMesaBuffer.new, USIZE_MOD, Nat.mod_eq_of_lt hsz]
  · simp

/-- Witness for the amended C1 at the concrete size (2, 3). -/
theorem c1_buffer_storage_amended_witness :
    OsMesaBuffer.new ⟨1⟩ 2 3
      = (Except.ok { buffer := List.replicate 24 ()
                     width := 2
                     height := 3 }, [])
    ∧ (List.replicate (2 * 3 * 4) (() : Unit)).length = 2 * 3 * 4 :=
  c1_buffer_storage_amended ⟨1⟩ 2 3 (by decide) (by decide) (by norm_num)
    (by norm_num) (by norm_num)

/-- Counterexample to claim C9 as stated: at the valid u32 size
(2147483648, 480) the u32-to-i32 cast wraps, so update_after_resize
stores width -2147483648 in the toolkit-level surface, not 2147483648. -/
theorem c9_counterexample :
    (winSurfW.update_after_resize 2147483648 480).wsurface.width = -2147483648
    ∧ ((-2147483648 : Int) = ((2147483648 : Nat) : Int)) = False := by
  constructor
  · simp [WindowSurface.update_after_resize, WlEglSurfaceState.resize,
      winSurfW, u32_as_i32]
  · norm_num

/-- Claim C9 amended: for every new size (w, h), update_after_resize
leaves the graphics-API-level surface field unchanged; and when both
components are below 2^31 (so the c_int casts are exact) it stores
exactly w and h in the toolkit-level surface. -/
theorem c9_resize_amended (s : WindowSurface) (w h : Nat) :
    (s.update_after_resize w h).surface = s.surface
    ∧ (w < 2 ^ 31 → h < 2 ^ 31 →
        (s.update_after_resize w h).wsurface.width = (w : Int)
        ∧ (s.update_after_resize w h).wsurface.height = (h : Int)) := by
  constructor
  · rfl
  · intro hw hh
    norm_num at hw hh
    simp [WindowSurface.update_after_resize, WlEglSurfaceState.resize,
      u32_as_i32, hw, hh]

/-- Witness for the amended C9 at the concrete size (800, 600). -/
theorem c9_resize_amended_witness :
    (winSurfW.update_after_resize 800 600).surface = winSurfW.surface
    ∧ ((winSurfW.update_after_resize 800 600).wsurface.width = ((800 : Nat) : Int)
        ∧ (winSurfW.update_after_resize 800 600).wsurface.height = ((600 : Nat) : Int)) :=
  ⟨(c9_resize_amended winSurfW 800 600).1,
   (c9_resize_amended winSurfW 800 600).2 (by norm_num) (by norm_num)⟩

/-- Counterexample to claim C2 as stated: with a builder whose robustness
mode is RobustNoResetNotification, an OpenGlEs version request fails with
RobustnessNotSupported, not with NoBackendAvailable, because the
robustness check runs first. -/
theorem c2_counterexample :
    (OsMesaContext.new envLoaded cbRob (.specific .openGlEs ⟨2, 0⟩)).1
      = NewOutcome.err CreationError.robustnessNotSupported
    ∧ errIsNoBackendAvailable
        (OsMesaContext.new envLoaded cbRob (.specific .openGlEs ⟨2, 0⟩)).1
      = false :=
  ⟨rfl, rfl⟩

/-- Claim C2 amended: for every context-builder input without a sharing
request and whose robustness mode is not one of the two rejected modes,
an OpenGlEs or WebGl version request makes OsMesaContext::new fail with
the NoBackendAvailable variant (whether or not the native library
loads), and no native context-creation call is attempted. -/
theorem c2_es_webgl_amended (env : OsEnv) (cb : ContextBuilderWrapper)
    (api : Api) (v : GlVersion)
    (hapi : api = Api.openGlEs ∨ api = Api.webGl)
    (hshare : cb.sharing = none)
    (h1 : cb.robustness ≠ Robustness.robustNoResetNotification)
    (h2 : cb.robustness ≠ Robustness.robustLoseContextOnReset) :
    errIsNoBackendAvailable
      (OsMesaContext.new env cb (.specific api v)).1 = true
    ∧ traceHasCreate
        (OsMesaContext.new env cb (.specific api v)).2 = false := by
  rcases hapi with rfl | rfl <;>
    cases hl : env.loadResult <;>
      cases hr : cb.robustness <;>
        simp_all [OsMesaContext.new, errIsNoBackendAvailable, traceHasCreate]

/-- Witness for the amended C2 at a concrete builder and ES request. -/
theorem c2_es_webgl_amended_witness :
    errIsNoBackendAvailable
      (OsMesaContext.new envLoaded cbPlain (.specific .openGlEs ⟨2, 0⟩)).1 = true
    ∧ traceHasCreate
        (OsMesaContext.new envLoaded cbPlain (.specific .openGlEs ⟨2, 0⟩)).2 = false :=
  c2_es_webgl_amended envLoaded cbPlain .openGlEs ⟨2, 0⟩ (Or.inl rfl) rfl
    (by decide) (by decide)

/-- Counterexample to claim C3 as stated: a builder whose robustness mode
is RobustNoResetNotification does not always get
Err(RobustnessNotSupported): when loading the native library fails, new
returns the NoBackendAvailable loading error instead, and when a sharing
request is also present (with the library loaded), new panics instead of
returning an Err at all. -/
theorem c3_counterexample :
    isErrRobustness (OsMesaContext.new envLoadFail cbRob .latest).1 = false
    ∧ (OsMesaContext.new envLoadFail cbRob .latest).1
        = NewOutcome.err (.noBackendAvailable (.loadingError loadFailText))
    ∧ isErrRobustness (OsMesaContext.new envLoaded cbShareRob .latest).1 = false
    ∧ (OsMesaContext.new envLoaded cbShareRob .latest).1
        = NewOutcome.panicked sharingPanicMsg :=
  ⟨rfl, rfl, rfl, rfl⟩

/-- Claim C3 amended: for every context-builder input whose robustness
mode is RobustNoResetNotification or RobustLoseContextOnReset, no native
context-creation call is ever attempted, and when additionally the
builder has no sharing request and the native library loads,
OsMesaContext::new returns Err(RobustnessNotSupported). -/
theorem c3_robustness_amended (env : OsEnv) (cb : ContextBuilderWrapper)
    (version : GlRequest)
    (hrob : cb.robustness = Robustness.robustNoResetNotification
      ∨ cb.robustness = Robustness.robustLoseContextOnReset) :
    (cb.sharing = none → env.loadResult = none →
      OsMesaContext.new env cb version
        = (NewOutcome.err CreationError.robustnessNotSupported, [.tryLoad]))
    ∧ traceHasCreate (OsMesaContext.new env cb version).2 = false := by
  constructor
  · intro hshare hload
    rcases hrob with hr | hr <;>
      simp [OsMesaContext.new, hload, hshare, hr]
  · cases hl : env.loadResult <;>
      cases hs : cb.sharing <;>
        rcases hrob with hr | hr <;>
          simp [OsMesaContext.new, hl, hs, hr, traceHasCreate]

/-- Witness for the amended C3 at a concrete rejected-robustness
builder. -/
theorem c3_robustness_amended_witness :
    (OsMesaContext.new envLoaded cbRob .latest
        = (NewOutcome.err CreationError.robustnessNotSupported, [.tryLoad]))
    ∧ traceHasCreate (OsMesaContext.new envLoaded cbRob .latest).2 = false :=
  ⟨(c3_robustness_amended envLoaded cbRob .latest (Or.inl rfl)).1 rfl rfl,
   (c3_robustness_amended envLoaded cbRob .latest (Or.inl rfl)).2⟩

/-- Counterexample to claim C8 as stated: with a sharing request present
but the native library failing to load, OsMesaContext::new returns the
NoBackendAvailable loading error instead of panicking, because the
loading check runs before the sharing check. -/
theorem c8_counterexample :
    newIsPanicked (OsMesaContext.new envLoadFail cbShare .latest).1 = false
    ∧ (OsMesaContext.new envLoadFail cbShare .latest).1
        = NewOutcome.err (.noBackendAvailable (.loadingError loadFailText)) :=
  ⟨rfl, rfl⟩

/-- Claim C8 amended: for every context-builder input with a sharing
request present, no native context-creation call is ever attempted, and
when the native library loads successfully, OsMesaContext::new panics
with the context-sharing message before any native context
construction. -/
theorem c8_sharing_amended (env : OsEnv) (cb : ContextBuilderWrapper)
    (version : GlRequest) (hshare : cb.sharing.isSome = true) :
    (env.loadResult = none →
      OsMesaContext.new env cb version
        = (NewOutcome.panicked sharingPanicMsg, [.tryLoad]))
    ∧ traceHasCreate (OsMesaContext.new env cb version).2 = false := by
  constructor
  · intro hload
    simp [OsMesaContext.new, hload, hshare]
  · cases hl : env.loadResult <;>
      simp [OsMesaContext.new, hl, hshare, traceHasCreate]

/-- Witness for the amended C8 at a concrete sharing builder. -/
theorem c8_sharing_amended_witness :
    (OsMesaContext.new envLoaded cbShare .latest
        = (NewOutcome.panicked sharingPanicMsg, [.tryLoad]))
    ∧ traceHasCreate (OsMesaContext.new envLoaded cbShare .latest).2 = false :=
  ⟨(c8_sharing_amended envLoaded cbShare .latest (by decide)).1 rfl,
   (c8_sharing_amended envLoaded cbShare .latest (by decide)).2⟩

/-- An attribute list ending in the pushed 0 sentinel has 0 as its last
element. -/
theorem attribsGetLastZero (l : List Int) : (l ++ [0]).getLast? = some 0 := by
  simp [List.getLast?_append]

/-- Claim C4: for every accepted context request (library loaded, no
sharing, robustness allowed, version not ES/WebGl), the attribute list
passed to the native creation call is the profile segment followed by the
version segment followed by the 0 sentinel; its last element is 0, the
profile key/value pair is present exactly when a profile was requested,
and the major/minor pairs are present exactly when a Specific desktop
OpenGl version or a GlThenGles version was requested. -/
theorem c4_attrib_list (env : OsEnv) (cb : ContextBuilderWrapper)
    (version : GlRequest)
    (hload : env.loadResult = none)
    (hshare : cb.sharing = none)
    (h1 : cb.robustness ≠ Robustness.robustNoResetNotification)
    (h2 : cb.robustness ≠ Robustness.robustLoseContextOnReset)
    (hapi : ∀ api v, version = GlRequest.specific api v → api = Api.openGl) :
    (OsMesaContext.new env cb version).2
      = [.tryLoad, .createContextAttribs
          (profileAttribs cb.profile ++ versionAttribs version ++ [0])]
    ∧ (profileAttribs cb.profile ++ versionAttribs version ++ [0]).getLast?
        = some 0
    ∧ (cb.profile = none → profileAttribs cb.profile = [])
    ∧ (∀ p, cb.profile = some p →
        profileAttribs cb.profile = [OSMESA_PROFILE, profileValue p])
    ∧ (version = GlRequest.latest → versionAttribs version = [])
    ∧ (∀ v, version = GlRequest.specific Api.openGl v →
        versionAttribs version
          = [OSMESA_CONTEXT_MAJOR_VERSION, (v.major : Int),
             OSMESA_CONTEXT_MINOR_VERSION, (v.minor : Int)])
    ∧ (∀ glv esv, version = GlRequest.glThenGles glv esv →
        versionAttribs version
          = [OSMESA_CONTEXT_MAJOR_VERSION, (glv.major : Int),
             OSMESA_CONTEXT_MINOR_VERSION, (glv.minor : Int)]) := by
  refine ⟨?_, attribsGetLastZero _,
    fun hp => by simp [hp, profileAttribs],
    fun p hp => by simp [hp, profileAttribs],
    fun hv => by simp [hv, versionAttribs],
    fun v hv => by simp [hv, versionAttribs],
    fun glv esv hv => by simp [hv, versionAttribs]⟩
  rcases version with _ | ⟨api, v⟩ | ⟨glv, esv⟩
  · cases hr : cb.robustness <;> simp_all [OsMesaContext.new]
  · obtain rfl := hapi api v rfl
    cases hr : cb.robustness <;> simp_all [OsMesaContext.new]
  · cases hr : cb.robustness <;> simp_all [OsMesaContext.new]

/-- Witness for C4 at a concrete accepted request: core profile and
desktop OpenGl 3.2. -/
theorem c4_attrib_list_witness :
    (OsMesaContext.new envLoaded cbCore (.specific Api.openGl ⟨3, 2⟩)).2
      = [.tryLoad, .createContextAttribs
          (profileAttribs cbCore.profile
            ++ versionAttribs (.specific Api.openGl ⟨3, 2⟩) ++ [0])]
    ∧ (profileAttribs cbCore.profile
        ++ versionAttribs (.specific Api.openGl ⟨3, 2⟩) ++ [0]).getLast?
        = some 0 :=
  ⟨(c4_attrib_list envLoaded cbCore (.specific Api.openGl ⟨3, 2⟩) rfl rfl
      (by decide) (by decide)
      (by intro api v h; cases h; rfl)).1,
   (c4_attrib_list envLoaded cbCore (.specific Api.openGl ⟨3, 2⟩) rfl rfl
      (by decide) (by decide)
      (by intro api v h; cases h; rfl)).2.1⟩
